import Mathlib

/-!
Verification of the COGIP avoidance core (`src/cogip/cpp/avoidance`).

The C++ code computes over IEEE doubles; the embedding uses exact rationals,
i.e. the idealized real-valued semantics (floating-point rounding is not
modelled).  Comparisons whose C++ form involves `sqrt`/`hypot` are rendered on
squares, which is order-faithful because real `sqrt` is monotone on
nonnegative inputs.  Where a `sqrt`, `cos` or `sin` VALUE (not a comparison)
flows into the state, the embedding is parameterized by functions
`sqrtD cosD sinD : ℚ → ℚ` and a constant `piD : ℚ` standing for the libm
implementations on doubles (every double is a rational, so this is a faithful
shape for those calls).
-/

/-- Modelled from the spec: `cogip_defs::Coords` (declared outside `src/`):
"pair (x, y) of finite 64-bit floating-point values in millimetres". -/
structure Coords where
  x : ℚ
  y : ℚ
deriving DecidableEq, Repr, Inhabited

/-- Modelled from the spec: `cogip_defs::Pose` (declared outside `src/`):
"Coords extended with orientation O in degrees".  A default-constructed pose
is modelled as (0, 0, 0). -/
structure Pose where
  x : ℚ
  y : ℚ
  O : ℚ
deriving DecidableEq, Repr, Inhabited

/-- Projection `Pose` → `Coords` (the C++ implicit conversion). -/
def Pose.toCoords (p : Pose) : Coords := ⟨p.x, p.y⟩

/-- Squared Euclidean distance; rendering of `cogip_defs::Coords::distance`
(declared outside `src/`; the spec: "distance(a, b) → Euclidean length") for
use in comparisons, see the header comment. -/
def dist2 (a b : Coords) : ℚ := (b.x - a.x) ^ 2 + (b.y - a.y) ^ 2

/-- `utils::areDoublesEqual` (utils.cpp): `fabs(a - b) < epsilon`. -/
def areDoublesEqual (a b epsilon : ℚ) : Bool := decide (|a - b| < epsilon)

/-- Modelled from the spec: `cogip_defs::Coords` epsilon equality (declared
outside `src/`): "Equality uses an epsilon tolerance (default 1e-3)". -/
def coordsEqual (a b : Coords) : Bool :=
  areDoublesEqual a.x b.x (1/1000) && areDoublesEqual a.y b.y (1/1000)

/-- Modelled from the spec: `cogip_defs::Polygon::point_index` (declared
outside `src/`): the index of the polygon vertex equal (within epsilon) to
`p`, or -1 when there is none. -/
def point_index (verts : List Coords) (p : Coords) : Int :=
  match verts.findIdx? (fun v => coordsEqual v p) with
  | some i => (i : Int)
  | none => -1

/-- Modelled from the spec: `cogip_defs::Coords::on_segment` (declared
outside `src/`): "true iff p is collinear with AB and within its bounding
interval (within epsilon)". -/
def on_segment (p a b : Coords) : Bool :=
  areDoublesEqual ((b.x - a.x) * (p.y - a.y) - (b.y - a.y) * (p.x - a.x)) 0 (1/1000)
  && decide (min a.x b.x - 1/1000 ≤ p.x) && decide (p.x ≤ max a.x b.x + 1/1000)
  && decide (min a.y b.y - 1/1000 ≤ p.y) && decide (p.y ≤ max a.y b.y + 1/1000)

/-- `_is_segment_crossing_line` (ObstaclePolygon.cpp:20): sign of the product
of the two cross products is strictly negative. -/
def is_segment_crossing_line (a b c d : Coords) : Bool :=
  let abx := b.x - a.x
  let aby := b.y - a.y
  let acx := c.x - a.x
  let acy := c.y - a.y
  let adx := d.x - a.x
  let ady := d.y - a.y
  decide ((abx * ady - aby * adx) * (abx * acy - aby * acx) < 0)

/-- `_is_segment_crossing_segment` (ObstaclePolygon.cpp:41). -/
def is_segment_crossing_segment (a b c d : Coords) : Bool :=
  is_segment_crossing_line a b c d && is_segment_crossing_line c d a b

/-- Successor vertex in the ring: `(i == size()-1) ? at(0) : at(i+1)`. -/
def nextVertex (verts : List Coords) (i : ℕ) : Coords :=
  if i = verts.length - 1 then verts.getD 0 default else verts.getD (i + 1) default

/-- `ObstaclePolygon::is_point_inside` (ObstaclePolygon.cpp:137): strictly
positive cross product on every edge; a zero or negative cross returns
false. -/
def polygon_is_point_inside (verts : List Coords) (p : Coords) : Bool :=
  (List.range verts.length).all fun i =>
    let a := verts.getD i default
    let b := nextVertex verts i
    decide (0 < (b.x - a.x) * (p.y - a.y) - (b.y - a.y) * (p.x - a.x))

/-- Loop body of `ObstaclePolygon::is_segment_crossing`
(ObstaclePolygon.cpp:151), by recursion on the remaining iteration count;
`fuel` starts at `verts.length` so index `i` runs over all edges exactly as
the C++ `for` loop does. -/
def polygonSegCrossAux (verts : List Coords) (a b : Coords) : ℕ → ℕ → Bool
  | 0, _ => false
  | fuel + 1, i =>
    let pi := verts.getD i default
    let pnext := nextVertex verts i
    if is_segment_crossing_segment a b pi pnext then true
    else
      let index := point_index verts a
      let index2 := point_index verts b
      if (index = 0 ∧ index2 = (verts.length : Int) - 1)
          ∨ (index2 = 0 ∧ index = (verts.length : Int) - 1) then
        polygonSegCrossAux verts a b fuel (i + 1)
      else if 0 ≤ index ∧ 0 ≤ index2 ∧ (index - index2).natAbs ≠ 1 then true
      else if on_segment pi a b then true
      else polygonSegCrossAux verts a b fuel (i + 1)

/-- `ObstaclePolygon::is_segment_crossing` (ObstaclePolygon.cpp:151). -/
def polygon_is_segment_crossing (verts : List Coords) (a b : Coords) : Bool :=
  polygonSegCrossAux verts a b verts.length 0

/-- `ObstaclePolygon::nearest_point` (ObstaclePolygon.cpp:183): vertex of
minimal distance to `p`, running minimum seeded with `UINT32_MAX` and `p`
itself; distance comparisons are rendered on squares. -/
def polygon_nearest_point (verts : List Coords) (p : Coords) : Coords :=
  (verts.foldl
    (fun (acc : ℚ × Coords) point =>
      if dist2 p point < acc.1 then (dist2 p point, point) else acc)
    ((4294967295 : ℚ) ^ 2, p)).2

/-- `ObstaclePolygon::calculatePolygonCentroid` (ObstaclePolygon.cpp:68)
applied to a vertex ring, starting from center `center₀` (the
default-constructed pose for a fresh polygon); `none` renders the `-ERANGE`
failure for fewer than 3 vertices.  Note the source assigns both weighted
sums through `center_.set_x` (lines 108-109), so the returned pose has
`x = y_sum * factor` (the second call overwrites the first) and an untouched
`y`; `factor` divides by `fabs(area)` (in ℚ, division by zero yields 0). -/
def calculatePolygonCentroid (verts : List Coords) (center₀ : Pose) : Option Pose :=
  if verts.length < 3 then none
  else
    let step := fun (acc : ℚ × ℚ × ℚ) (i : ℕ) =>
      let p1 := verts.getD i default
      let p2 := nextVertex verts i
      let cross_product := p1.x * p2.y - p2.x * p1.y
      (acc.1 + cross_product,
       acc.2.1 + (p1.x + p2.x) * cross_product,
       acc.2.2 + (p1.y + p2.y) * cross_product)
    let sums := (List.range verts.length).foldl step (0, 0, 0)
    let area := sums.1 * (1/2)
    let factor := 1 / (6 * |area|)
    some { center₀ with x := sums.2.2 * factor }

/-- `ObstaclePolygon::update_bounding_box_` (ObstaclePolygon.cpp:199): scales
every POLYGON VERTEX away from the center by `(1 + margin)`; it never writes
the `bounding_box_` member, and `ObstaclePolygon`'s constructor never calls
it. -/
def polygon_update_bounding_box (verts : List Coords) (center : Pose) (margin : ℚ) :
    List Coords :=
  verts.map fun point =>
    ⟨center.x + (point.x - center.x) * (1 + margin),
     center.y + (point.y - center.y) * (1 + margin)⟩

/-- Spec-side definition for C1, from the claim's words: with
`A = ½·Σ(xᵢ·yᵢ₊₁ − xᵢ₊₁·yᵢ)`, `Cx = (1/6A)·Σ(xᵢ+xᵢ₊₁)(xᵢyᵢ₊₁ − xᵢ₊₁yᵢ)` and
`Cy` the symmetric sum over the y coordinates. -/
def centroidSpec (verts : List Coords) : Coords :=
  let step := fun (acc : ℚ × ℚ × ℚ) (i : ℕ) =>
    let p1 := verts.getD i default
    let p2 := nextVertex verts i
    let cross := p1.x * p2.y - p2.x * p1.y
    (acc.1 + cross, acc.2.1 + (p1.x + p2.x) * cross, acc.2.2 + (p1.y + p2.y) * cross)
  let sums := (List.range verts.length).foldl step (0, 0, 0)
  let A := sums.1 * (1/2)
  ⟨sums.2.1 / (6 * A), sums.2.2 / (6 * A)⟩

/-- Spec-side definition for C2 (polygon case), from the claim's words:
"each vertex is moved outward from the centroid by that factor". -/
def polygonInflatedRingSpec (verts : List Coords) (margin : ℚ) : List Coords :=
  let c := centroidSpec verts
  verts.map fun v =>
    ⟨c.x + (v.x - c.x) * (1 + margin), c.y + (v.y - c.y) * (1 + margin)⟩

/-- `ObstacleCircle::is_point_inside` (ObstacleCircle.cpp:27):
`center.distance(p) <= radius`, rendered on squares. -/
def circle_is_point_inside (center : Coords) (radius : ℚ) (p : Coords) : Bool :=
  decide (dist2 center p ≤ radius ^ 2)

/-- `ObstacleCircle::is_line_crossing_circle` (ObstacleCircle.cpp:61):
`|AB × AC| / hypot(AB) <= radius`, rendered on squares (both sides are
nonnegative).  When `a = b` the C++ expression is `0.0/0.0 = NaN` and the
comparison is false; the `denom2 = 0` guard renders that. -/
def is_line_crossing_circle (center : Coords) (radius : ℚ) (a b : Coords) : Bool :=
  let abx := b.x - a.x
  let aby := b.y - a.y
  let acx := center.x - a.x
  let acy := center.y - a.y
  let numerator2 := (abx * acy - aby * acx) ^ 2
  let denominator2 := abx ^ 2 + aby ^ 2
  if denominator2 = 0 then false
  else decide (numerator2 ≤ radius ^ 2 * denominator2)

/-- `ObstacleCircle::is_segment_crossing` (ObstacleCircle.cpp:32): returns
true when an endpoint is inside OR the line crosses the circle, and
OTHERWISE returns the two dot-product signs alone. -/
def circle_is_segment_crossing (center : Coords) (radius : ℚ) (a b : Coords) : Bool :=
  if circle_is_point_inside center radius a || circle_is_point_inside center radius b
      || is_line_crossing_circle center radius a b then true
  else
    let abx := b.x - a.x
    let aby := b.y - a.y
    let acx := center.x - a.x
    let acy := center.y - a.y
    let bcx := center.x - b.x
    let bcy := center.y - b.y
    let scal1 := abx * acx + aby * acy
    let scal2 := (-abx) * bcx + (-aby) * bcy
    decide (0 ≤ scal1) && decide (0 ≤ scal2)

/-- Spec-side definition for C3, from the claim's words: true iff a is
inside, or b is inside, or both the perpendicular distance from the center
to line AB is ≤ radius and the foot of that perpendicular lies within the
segment (`AB·AC ≥ 0` and `(−AB)·BC ≥ 0`); distances rendered on squares. -/
def circleCrossesSpec (center : Coords) (radius : ℚ) (a b : Coords) : Bool :=
  let abx := b.x - a.x
  let aby := b.y - a.y
  let acx := center.x - a.x
  let acy := center.y - a.y
  let bcx := center.x - b.x
  let bcy := center.y - b.y
  circle_is_point_inside center radius a || circle_is_point_inside center radius b
  || (is_line_crossing_circle center radius a b
      && decide (0 ≤ abx * acx + aby * acy)
      && decide (0 ≤ (-abx) * bcx + (-aby) * bcy))

/-- `ObstacleCircle::nearest_point` (ObstacleCircle.cpp:48), parameterized by
the libm square root on doubles (`std::hypot`). -/
def circle_nearest_point (sqrtD : ℚ → ℚ) (center : Coords) (radius margin : ℚ)
    (p : Coords) : Coords :=
  let vx := p.x - center.x
  let vy := p.y - center.y
  let vect_norm := sqrtD (vx ^ 2 + vy ^ 2)
  let scale := (radius * (1 + margin)) / vect_norm
  ⟨center.x + vx * scale, center.y + vy * scale⟩

/-- Concrete obstacle variant tag: `ObstaclePolygon` / `ObstacleRectangle`
dispatch to the polygon code (a rectangle is stored as its 4-vertex
polygon), `ObstacleCircle` to the circle code. -/
inductive ShapeKind
  | polygonKind
  | circleKind
deriving DecidableEq, Repr

/-- State of a constructed `cogip::obstacles::Obstacle` (Obstacle.hpp):
the polygon vertex storage (empty for circles), the center pose, the
circumscribed radius, the precomputed `bounding_box_`, the margin and the
enabled flag. -/
structure Obstacle where
  kind : ShapeKind
  vertices : List Coords
  center : Pose
  radius : ℚ
  bounding_box : List Coords
  bounding_box_margin : ℚ
  enabled : Bool
deriving DecidableEq, Repr

instance : Inhabited Obstacle :=
  ⟨⟨ShapeKind.polygonKind, [], default, 0, [], 1/5, true⟩⟩

/-- Virtual dispatch of `Obstacle::is_point_inside`. -/
def Obstacle.is_point_inside (o : Obstacle) (p : Coords) : Bool :=
  match o.kind with
  | ShapeKind.polygonKind => polygon_is_point_inside o.vertices p
  | ShapeKind.circleKind => circle_is_point_inside o.center.toCoords o.radius p

/-- Virtual dispatch of `Obstacle::is_segment_crossing`. -/
def Obstacle.is_segment_crossing (o : Obstacle) (a b : Coords) : Bool :=
  match o.kind with
  | ShapeKind.polygonKind => polygon_is_segment_crossing o.vertices a b
  | ShapeKind.circleKind => circle_is_segment_crossing o.center.toCoords o.radius a b

/-- Virtual dispatch of `Obstacle::nearest_point`. -/
def Obstacle.nearest_point (sqrtD : ℚ → ℚ) (o : Obstacle) (p : Coords) : Coords :=
  match o.kind with
  | ShapeKind.polygonKind => polygon_nearest_point o.vertices p
  | ShapeKind.circleKind =>
      circle_nearest_point sqrtD o.center.toCoords o.radius o.bounding_box_margin p

/-- Radius computation of `ObstaclePolygon::calculatePolygonRadius`
(ObstaclePolygon.cpp:114): running maximum of `sqrt(dx*dx + dy*dy)` over the
vertices, starting from 0; `sqrtD` stands for the libm square root. -/
def calculatePolygonRadius (sqrtD : ℚ → ℚ) (verts : List Coords) (center : Pose) : ℚ :=
  verts.foldl
    (fun radius point =>
      let distance := sqrtD ((point.x - center.x) ^ 2 + (point.y - center.y) ^ 2)
      if radius < distance then distance else radius)
    0

/-- `ObstaclePolygon::ObstaclePolygon` (ObstaclePolygon.cpp:54): stores the
vertex ring, then derives centroid and radius; `none` renders the thrown
exception for fewer than 3 points.  The base-class fields come from the
default `Obstacle` constructor (margin 0.2, enabled, empty bounding box);
in particular `update_bounding_box_` is never called, so `bounding_box_`
stays empty. -/
def mkObstaclePolygon (sqrtD : ℚ → ℚ) (points : List Coords) : Option Obstacle :=
  match calculatePolygonCentroid points default with
  | none => none
  | some center =>
      some { kind := ShapeKind.polygonKind
             vertices := points
             center := center
             radius := calculatePolygonRadius sqrtD points center
             bounding_box := []
             bounding_box_margin := 1/5
             enabled := true }

/-- Modelled from the spec: `DEG2RAD` (trigonometry.h, not under `src/`):
degrees-to-radians conversion, with `piD` the double constant `M_PI`. -/
def deg2rad (piD deg : ℚ) : ℚ := deg * piD / 180

/-- The four corner formulas shared by `ObstacleRectangle`'s constructor and
`ObstacleRectangle::update_bounding_box_` (ObstacleRectangle.cpp:31 and 64),
for given side lengths. -/
def rectangleCorners (center : Pose) (length_x length_y cos_theta sin_theta : ℚ) :
    List Coords :=
  [⟨center.x - (length_x / 2) * cos_theta + (length_y / 2) * sin_theta,
    center.y - (length_x / 2) * sin_theta - (length_y / 2) * cos_theta⟩,
   ⟨center.x + (length_x / 2) * cos_theta + (length_y / 2) * sin_theta,
    center.y + (length_x / 2) * sin_theta - (length_y / 2) * cos_theta⟩,
   ⟨center.x + (length_x / 2) * cos_theta - (length_y / 2) * sin_theta,
    center.y + (length_x / 2) * sin_theta + (length_y / 2) * cos_theta⟩,
   ⟨center.x - (length_x / 2) * cos_theta - (length_y / 2) * sin_theta,
    center.y - (length_x / 2) * sin_theta + (length_y / 2) * cos_theta⟩]

/-- `ObstacleRectangle::ObstacleRectangle` (ObstacleRectangle.cpp:18):
vertices from the corner formulas, radius `sqrt(lx²+ly²)/2`, bounding box
from `update_bounding_box_` with the side lengths scaled by `(1 + margin)`;
the margin is the base-class default 0.2.  `cosD`, `sinD`, `sqrtD`, `piD`
stand for the libm implementations. -/
def mkObstacleRectangle (sqrtD cosD sinD : ℚ → ℚ) (piD : ℚ) (center : Pose)
    (length_x length_y : ℚ) : Obstacle :=
  let cos_theta := cosD (deg2rad piD center.O)
  let sin_theta := sinD (deg2rad piD center.O)
  { kind := ShapeKind.polygonKind
    vertices := rectangleCorners center length_x length_y cos_theta sin_theta
    center := center
    radius := sqrtD (length_x * length_x + length_y * length_y) / 2
    bounding_box :=
      rectangleCorners center (length_x * (1 + 1/5)) (length_y * (1 + 1/5))
        cos_theta sin_theta
    bounding_box_margin := 1/5
    enabled := true }

/-- Loop of `ObstacleCircle::update_bounding_box_` (ObstacleCircle.cpp:79):
the counter `i` is `uint8_t` (wraps at 256) while the bound `n` is
`uint32_t`; one sample is appended per iteration.  `none` renders
non-termination when the fuel runs out. -/
def circleBBoxAux (cosD sinD : ℚ → ℚ) (piD : ℚ) (center : Pose) (adjusted_radius : ℚ)
    (n : ℕ) : ℕ → ℕ → List Coords → Option (List Coords)
  | 0, _, _ => none
  | fuel + 1, i, acc =>
    if i < n then
      let angle := (i : ℚ) * 2 * piD / (n : ℚ)
      circleBBoxAux cosD sinD piD center adjusted_radius n fuel ((i + 1) % 256)
        (acc ++ [⟨center.x + adjusted_radius * cosD angle,
                  center.y + adjusted_radius * sinD angle⟩])
    else some acc

/-- `ObstacleCircle::update_bounding_box_` (ObstacleCircle.cpp:72): for
`radius ≤ 0` the bounding box is left as constructed (empty); otherwise the
sampling loop runs with the `uint8_t` counter.  The fuel `n + 1` covers
every terminating run (a run that exits does so after exactly `n`
iterations, which needs `n ≤ 255`); when `n ≥ 256` the wrapped counter
never reaches the bound, every fuel is exhausted, and the result is `none`:
the C++ loop never exits. -/
def circle_update_bounding_box (cosD sinD : ℚ → ℚ) (piD : ℚ) (center : Pose)
    (radius margin : ℚ) (n : ℕ) : Option (List Coords) :=
  if radius ≤ 0 then some []
  else circleBBoxAux cosD sinD piD center (radius * (1 + margin)) n (n + 1) 0 []

/-- `ObstacleCircle::ObstacleCircle` (ObstacleCircle.cpp:16): stores the
fields and precomputes the bounding box; `none` renders a constructor that
never returns. -/
def mkObstacleCircle (cosD sinD : ℚ → ℚ) (piD : ℚ) (center : Pose)
    (radius bounding_box_margin : ℚ) (n : ℕ) : Option Obstacle :=
  match circle_update_bounding_box cosD sinD piD center radius bounding_box_margin n with
  | none => none
  | some bb =>
      some { kind := ShapeKind.circleKind
             vertices := []
             center := center
             radius := radius
             bounding_box := bb
             bounding_box_margin := bounding_box_margin
             enabled := true }

/-- The error kinds a plan request can surface; the C++ returns `false` with
a distinct `cerr` message for each branch (Avoidance.cpp:259, 274, 170,
208). -/
inductive PlanError
  | finishOutsideBorders
  | finishInsideObstacle
  | startIsolated
  | noPath
deriving DecidableEq, Repr

/-- Outcome of a plan request. -/
inductive AvOutcome
  | ok
  | err (e : PlanError)
deriving DecidableEq, Repr

/-- State of a `cogip::avoidance::Avoidance` instance (the data members of
Avoidance.cpp that the embedded operations read or write).  `_allObstacles`
is a set holding the fixed and the dynamic list, iterated fixed-first (their
declaration order). -/
structure AvState where
  borders : List Coords
  fixedObstacles : List Obstacle
  dynamicObstacles : List Obstacle
  validPoints : List Coords
  path : List Coords
  isComputed : Bool
  startPose : Coords
  finishPose : Coords
deriving DecidableEq, Repr

/-- The `_allObstacles` iteration: fixed list then dynamic list
(Avoidance.cpp:23). -/
def allObstacles (st : AvState) : List Obstacle :=
  st.fixedObstacles ++ st.dynamicObstacles

/-- `Avoidance::is_point_in_obstacles` (Avoidance.cpp:27).  The C++ `filter`
is a pointer compared by identity; obstacles are identified here by their
position in the iterated list, so `filter = some i` skips the i-th
obstacle.  Every call in the source passes `nullptr` (`none`). -/
def is_point_in_obstacles (obstacles : List Obstacle) (p : Coords)
    (filter : Option ℕ) : Bool :=
  (List.range obstacles.length).any fun i =>
    let o := obstacles.getD i default
    o.enabled && decide (filter ≠ some i) && o.is_point_inside p

/-- `Avoidance::validateObstaclePoints` (Avoidance.cpp:45): for each enabled
obstacle whose center is inside the borders, keep the bounding-box points
that are inside the borders and not inside any enabled obstacle (no filter:
the obstacle itself included). -/
def validateObstaclePoints (obstacles : List Obstacle) (borders : List Coords) :
    List Coords :=
  obstacles.foldl
    (fun acc o =>
      if o.enabled && polygon_is_point_inside borders o.center.toCoords then
        acc ++ o.bounding_box.filter
          (fun point => polygon_is_point_inside borders point
            && !(is_point_in_obstacles obstacles point none))
      else acc)
    []

/-- `utils::calculate_distance` (utils.cpp:13): `hypot(dx, dy)`, with `sqrtD`
the libm model. -/
def calculate_distance (sqrtD : ℚ → ℚ) (a b : Coords) : ℚ :=
  sqrtD ((b.x - a.x) ^ 2 + (b.y - a.y) ^ 2)

/-- Whether some enabled obstacle crosses the segment; the inner collision
loop of `Avoidance::buildAvoidanceGraph` (Avoidance.cpp:104). -/
def segmentCollides (obstacles : List Obstacle) (p q : Coords) : Bool :=
  obstacles.any fun o => o.enabled && o.is_segment_crossing p q

/-- The adjacency map built by `Avoidance::buildAvoidanceGraph`
(Avoidance.cpp:91): for `p < p2`, an edge with the Euclidean distance as
weight iff no enabled obstacle crosses the segment; stored symmetrically. -/
def graphEdge (sqrtD : ℚ → ℚ) (obstacles : List Obstacle) (validPoints : List Coords)
    (i j : ℕ) : Option ℚ :=
  let p := min i j
  let q := max i j
  if p < q ∧ q < validPoints.length
      ∧ ¬segmentCollides obstacles (validPoints.getD p default)
          (validPoints.getD q default) then
    some (calculate_distance sqrtD (validPoints.getD p default)
      (validPoints.getD q default))
  else none

/-- IEEE `<` on distances with `none` standing for `+infinity`
(`MAX_DISTANCE` in Avoidance.cpp:146). -/
def dlt : Option ℚ → Option ℚ → Bool
  | some a, some b => decide (a < b)
  | some _, none => true
  | none, _ => false

/-- Distance plus edge weight, `+infinity` absorbing. -/
def dAdd : Option ℚ → ℚ → Option ℚ
  | none, _ => none
  | some a, w => some (a + w)

/-- The relaxation pass over the neighbours of `v` (Avoidance.cpp:186):
`std::map` iteration is in ascending key order. -/
def relaxAll (n : ℕ) (edge : ℕ → ℕ → Option ℚ) (v : ℕ)
    (dp : (ℕ → Option ℚ) × (ℕ → Int)) : (ℕ → Option ℚ) × (ℕ → Int) :=
  (List.range n).foldl
    (fun dp j =>
      match edge v j with
      | none => dp
      | some weight =>
          if dlt (dAdd (dp.1 v) weight) (dp.1 j) then
            (fun k => if k = j then dAdd (dp.1 v) weight else dp.1 k,
             fun k => if k = j then (v : Int) else dp.2 k)
          else dp)
    dp

/-- The argmin pass (Avoidance.cpp:199): smallest unchecked finite distance,
ties broken by the lower index (ascending `std::map` iteration with a strict
comparison); `v` keeps its previous value when nothing beats `+infinity`. -/
def selectMin (n : ℕ) (checked : ℕ → Bool) (dist : ℕ → Option ℚ) (v : ℕ) :
    Option ℚ × ℕ :=
  (List.range n).foldl
    (fun (acc : Option ℚ × ℕ) i =>
      if !checked i && dlt (dist i) acc.1 then (dist i, i) else acc)
    (none, v)

/-- Main loop of `Avoidance::dijkstra` (Avoidance.cpp:177): runs until `v`
is the finish vertex (index 1) or already checked; each pass marks `v`,
relaxes its neighbours, and picks the next vertex; returns the `noPath`
failure when no unchecked vertex has finite distance.  `none` renders fuel
exhaustion (the loop checks one new vertex per pass, so fuel `n + 1` covers
every run). -/
def dijkstraLoop (n : ℕ) (edge : ℕ → ℕ → Option ℚ) :
    ℕ → ℕ → (ℕ → Bool) → ((ℕ → Option ℚ) × (ℕ → Int)) →
    Option (Except PlanError (ℕ → Int))
  | 0, _, _, _ => none
  | fuel + 1, v, checked, dp =>
    if v ≠ 1 ∧ ¬checked v then
      let checked' := fun k => if k = v then true else checked k
      let dp' := relaxAll n edge v dp
      let sel := selectMin n checked' dp'.1 v
      if sel.1 = none then some (Except.error PlanError.noPath)
      else dijkstraLoop n edge fuel sel.2 checked' dp'
    else some (Except.ok dp.2)

/-- Path reconstruction loop of `Avoidance::dijkstra` (Avoidance.cpp:219):
follows parent links from `current`, collecting the visited indices in push
order (each one `push_front`ed in the C++), stopping at -1 or at the start
index 0.  `none` renders a walk that does not stop within the fuel; a
negative index other than the -1 sentinel would index `_validPoints` out of
range (undefined behaviour), also rendered `none`. -/
def walkParents (parent : ℕ → Int) : ℕ → Int → Option (List ℕ)
  | 0, _ => none
  | fuel + 1, current =>
    if current = -1 ∨ current = 0 then some []
    else
      match current with
      | Int.negSucc _ => none
      | Int.ofNat cn =>
        match walkParents parent fuel (parent cn) with
        | none => none
        | some rest => some (cn :: rest)

/-- `Avoidance::dijkstra` (Avoidance.cpp:144): clears the path, fails with
`startIsolated` when vertex 0 has no neighbour, runs the main loop from
vertex 0, and on success stores the reconstructed path (the `push_front`
sequence makes the deque the reverse of the visit order). -/
def dijkstra (sqrtD : ℚ → ℚ) (st : AvState) : Option (Except PlanError AvState) :=
  let n := st.validPoints.length
  let edge := graphEdge sqrtD (allObstacles st) st.validPoints
  let st0 : AvState := { st with path := [], isComputed := false }
  if (List.range n).all (fun j => edge 0 j = none) then
    some (Except.error PlanError.startIsolated)
  else
    let dist0 := fun k : ℕ => if k = 0 then some (0 : ℚ) else none
    let parent0 := fun _ : ℕ => (-1 : Int)
    let checked0 := fun _ : ℕ => false
    match dijkstraLoop n edge (n + 1) 0 checked0 (dist0, parent0) with
    | none => none
    | some (Except.error e) => some (Except.error e)
    | some (Except.ok parent) =>
        match walkParents parent (n + 1) 1 with
        | none => none
        | some visited =>
            some (Except.ok { st0 with
              path := visited.reverse.map (fun i => st.validPoints.getD i default)
              isComputed := true })

/-- Sequential start/finish check loop of `Avoidance::avoidance`
(Avoidance.cpp:266): for each obstacle — the `enabled` flag is NOT consulted
— fail as soon as one contains the finish pose (`error` carries the start
pose snapped so far), else snap the running start pose to the obstacle's
nearest point when it contains it. -/
def checkObstaclesLoop (sqrtD : ℚ → ℚ) (finish : Coords) :
    List Obstacle → Coords → Except Coords Coords
  | [], s => Except.ok s
  | o :: rest, s =>
    if o.is_point_inside finish then Except.error s
    else checkObstaclesLoop sqrtD finish rest
      (if o.is_point_inside s then o.nearest_point sqrtD s else s)

/-- `Avoidance::avoidance` (Avoidance.cpp:250): records the poses, clears
the computed flag, checks the borders and the obstacles, seeds the valid
points with start and finish, appends the validated bounding-box points
(`buildAvoidanceGraph` calls `validateObstaclePoints`), and runs Dijkstra. -/
def avoidance (sqrtD : ℚ → ℚ) (st : AvState) (start finish : Coords) :
    Option (AvOutcome × AvState) :=
  let st1 : AvState :=
    { st with startPose := start, finishPose := finish, isComputed := false }
  if ¬polygon_is_point_inside st1.borders st1.finishPose then
    some (AvOutcome.err PlanError.finishOutsideBorders, st1)
  else
    match checkObstaclesLoop sqrtD st1.finishPose (allObstacles st1) st1.startPose with
    | Except.error s =>
        some (AvOutcome.err PlanError.finishInsideObstacle, { st1 with startPose := s })
    | Except.ok s =>
        let st2 : AvState := { st1 with
          startPose := s
          validPoints := [s, st1.finishPose]
            ++ validateObstaclePoints (allObstacles st1) st1.borders }
        match dijkstra sqrtD st2 with
        | none => none
        | some (Except.error e) =>
            some (AvOutcome.err e, { st2 with path := [], isComputed := false })
        | some (Except.ok st3) => some (AvOutcome.ok, st3)

/-- `Avoidance::getPathSize` (Avoidance.cpp:234). -/
def getPathSize (st : AvState) : ℕ := st.path.length

/-- The error of `Avoidance::getPathPose` (the thrown `std::out_of_range`). -/
inductive PathIndexError
  | indexOutOfRange
deriving DecidableEq, Repr

/-- `Avoidance::getPathPose` (Avoidance.cpp:239); the C++ index parameter is
`uint8_t`, so its domain is 0..255. -/
def getPathPose (st : AvState) (index : ℕ) : Except PathIndexError Coords :=
  if h : index < st.path.length then Except.ok (st.path.get ⟨index, h⟩)
  else Except.error PathIndexError.indexOutOfRange

/-- `Avoidance::checkRecompute` (Avoidance.cpp:295): scans the dynamic
obstacles only; skips those whose center is outside the borders; returns
true on the first whose segment-crossing test fires.  The `enabled` flag is
not consulted. -/
def checkRecompute (st : AvState) (start stop : Coords) : Bool :=
  st.dynamicObstacles.any fun o =>
    polygon_is_point_inside st.borders o.center.toCoords
      && o.is_segment_crossing start stop

/-- Spec-side definition for C4, from the claim's words: a bounding-box
point `p` of obstacle `oIdx` should be accepted iff the borders contain it
and no enabled obstacle OTHER THAN the obstacle itself contains it. -/
def candidateAcceptSpec (obstacles : List Obstacle) (borders : List Coords)
    (oIdx : ℕ) (p : Coords) : Bool :=
  polygon_is_point_inside borders p
    && !(is_point_in_obstacles obstacles p (some oIdx))

/-- Spec-side definition for C7, from the claim's words: true iff some
ENABLED dynamic obstacle's segment-crossing test fires (no condition on the
obstacle's center). -/
def shouldRecomputeSpec (st : AvState) (a b : Coords) : Bool :=
  st.dynamicObstacles.any fun o => o.enabled && o.is_segment_crossing a b

/-! Concrete fixtures used by the counterexamples and witnesses below. -/

/-- A playing field: the square (0,0)-(100,100), CCW. -/
def bordersField : List Coords := [⟨0, 0⟩, ⟨100, 0⟩, ⟨100, 100⟩, ⟨0, 100⟩]

/-- A larger playing field: the rectangle (0,0)-(3000,2000), CCW. -/
def bordersBig : List Coords := [⟨0, 0⟩, ⟨3000, 0⟩, ⟨3000, 2000⟩, ⟨0, 2000⟩]

/-- The triangle (0,0),(2,0),(0,1), CCW; true centroid (2/3, 1/3). -/
def triC1 : List Coords := [⟨0, 0⟩, ⟨2, 0⟩, ⟨0, 1⟩]

/-- Model of libm cos faithful at the only angle the C4 counterexample
evaluates: `cos(0.0) = 1.0` exactly in IEEE arithmetic. -/
def cosModelC4 : ℚ → ℚ := fun q => if q = 0 then 1 else 0

/-- Model of libm sin faithful at angle 0: `sin(0.0) = 0.0` exactly. -/
def sinModelC4 : ℚ → ℚ := fun _ => 0

/-- A rational stand-in for the double constant `M_PI` (its value is never
used by the fixtures: only angle 0 is ever evaluated). -/
def piModelC4 : ℚ := 314159 / 100000

/-- The circle obstacle state produced by
`mkObstacleCircle cosModelC4 sinModelC4 piModelC4 (50,50,0) 10 0 1`:
margin 0, a single bounding-box sample at angle 0. -/
def circC4 : Obstacle :=
  { kind := ShapeKind.circleKind, vertices := [], center := ⟨50, 50, 0⟩, radius := 10
    bounding_box := [⟨60, 50⟩], bounding_box_margin := 0, enabled := true }

/-- A fresh planner state on the empty field. -/
def stEmpty : AvState :=
  { borders := bordersField, fixedObstacles := [], dynamicObstacles := []
    validPoints := [], path := [], isComputed := false
    startPose := ⟨0, 0⟩, finishPose := ⟨0, 0⟩ }

/-- The state after the successful `plan((10,10),(90,90))` on `stEmpty`. -/
def stPlanned : AvState :=
  { borders := bordersField, fixedObstacles := [], dynamicObstacles := []
    validPoints := [⟨10, 10⟩, ⟨90, 90⟩], path := [⟨90, 90⟩], isComputed := true
    startPose := ⟨10, 10⟩, finishPose := ⟨90, 90⟩ }

/-- The state after the failing `plan((10,10),(500,500))` on `stPlanned`:
only the poses and the computed flag changed; the old path survives. -/
def stFailed : AvState :=
  { borders := bordersField, fixedObstacles := [], dynamicObstacles := []
    validPoints := [⟨10, 10⟩, ⟨90, 90⟩], path := [⟨90, 90⟩], isComputed := false
    startPose := ⟨10, 10⟩, finishPose := ⟨500, 500⟩ }

/-- A DISABLED circle obstacle centered at (50,50) with radius 10. -/
def circDisabled : Obstacle :=
  { kind := ShapeKind.circleKind, vertices := [], center := ⟨50, 50, 0⟩, radius := 10
    bounding_box := [⟨60, 50⟩], bounding_box_margin := 0, enabled := false }

/-- Planner state holding only the disabled circle as a fixed obstacle. -/
def stDisabled : AvState :=
  { borders := bordersField, fixedObstacles := [circDisabled], dynamicObstacles := []
    validPoints := [], path := [], isComputed := false
    startPose := ⟨0, 0⟩, finishPose := ⟨0, 0⟩ }

/-- The state returned by the failing `plan((10,10),(50,50))` on
`stDisabled`. -/
def stDisabledErr : AvState :=
  { borders := bordersField, fixedObstacles := [circDisabled], dynamicObstacles := []
    validPoints := [], path := [], isComputed := false
    startPose := ⟨10, 10⟩, finishPose := ⟨50, 50⟩ }

/-- An ENABLED dynamic circle obstacle centered at (200,200) — outside the
field — with radius 10. -/
def circOutside : Obstacle :=
  { kind := ShapeKind.circleKind, vertices := [], center := ⟨200, 200, 0⟩, radius := 10
    bounding_box := [], bounding_box_margin := 1/5, enabled := true }

/-- Planner state holding only the outside circle as a dynamic obstacle. -/
def stDyn : AvState :=
  { borders := bordersField, fixedObstacles := [], dynamicObstacles := [circOutside]
    validPoints := [], path := [], isComputed := false
    startPose := ⟨0, 0⟩, finishPose := ⟨0, 0⟩ }

/-- The derived `Inhabited` default for `Pose` is the zero pose. -/
theorem pose_default_eq : (default : Pose) = ⟨0, 0, 0⟩ := rfl

/-- The derived `Inhabited` default for `Coords` is the origin. -/
theorem coords_default_eq : (default : Coords) = ⟨0, 0⟩ := rfl

/-- Claim C1: for every Polygon built from a vertex ring of at least 3
vertices, the derived center equals the signed-area-weighted centroid.  The
code contradicts this: on the triangle (0,0),(2,0),(0,1) the constructor
stores x = 1/3 (the y-weighted sum, because `center_.set_x` is called for
both components, ObstaclePolygon.cpp:108-109) and never assigns y, while
the claimed centroid is (2/3, 1/3). -/
theorem C1_centroid_code_bug :
    calculatePolygonCentroid triC1 default = some ⟨1/3, 0, 0⟩
    ∧ centroidSpec triC1 = ⟨2/3, 1/3⟩
    ∧ (1 : ℚ)/3 ≠ 2/3 := by
  refine ⟨?_, ?_, by norm_num⟩ <;>
    norm_num [calculatePolygonCentroid, centroidSpec, triC1, nextVertex,
      List.range_succ, pose_default_eq, coords_default_eq]

/-- Claim C2: `bounding_box()` is the inflated ring for every variant.  The
code contradicts this for polygons: `ObstaclePolygon`'s constructor never
calls `update_bounding_box_` (and that function scales the polygon's own
vertices, ObstaclePolygon.cpp:199), so the stored bounding box is empty,
while the claimed vertex-wise inflated ring has 3 points. -/
theorem C2_polygon_bounding_box_code_bug :
    (mkObstaclePolygon (fun q => q) triC1).map Obstacle.bounding_box = some []
    ∧ (polygonInflatedRingSpec triC1 (1/5)).length = 3 := by
  constructor <;>
    norm_num [mkObstaclePolygon, calculatePolygonCentroid, calculatePolygonRadius,
      polygonInflatedRingSpec, centroidSpec, triC1, nextVertex, List.range_succ,
      pose_default_eq, coords_default_eq]

/-- Claim C3: circle `crosses_segment(a,b)` is true iff an endpoint is
inside, or the perpendicular distance from the center to the line AB is ≤
radius and the foot lies within the segment.  The code contradicts this: for
the circle centered (0,10) with radius 1 and the segment (-1,0)-(1,0) —
perpendicular distance 10, both endpoints far outside — the code returns
true (the dot-product condition alone decides when the early disjunction
fails, ObstacleCircle.cpp:45), while the claimed predicate is false. -/
theorem C3_circle_crossing_code_bug :
    circle_is_segment_crossing ⟨0, 10⟩ 1 ⟨-1, 0⟩ ⟨1, 0⟩ = true
    ∧ circleCrossesSpec ⟨0, 10⟩ 1 ⟨-1, 0⟩ ⟨1, 0⟩ = false := by
  constructor <;>
    norm_num [circle_is_segment_crossing, circleCrossesSpec, circle_is_point_inside,
      is_line_crossing_circle, dist2]

/-- Claim C4 counterexample: a circle obstacle with margin 0 built by the
constructor (one sample, at angle 0, where the libm model is exact:
cos 0 = 1, sin 0 = 0) yields the bounding-box point (60,50), which lies
inside the borders and inside no obstacle OTHER than the circle itself —
the claim accepts it — yet `validateObstaclePoints` rejects it, because the
code filter (`is_point_in_obstacles(point, nullptr)`, Avoidance.cpp:71)
also consults the owning obstacle, which contains its own boundary point. -/
theorem C4_counterexample :
    mkObstacleCircle cosModelC4 sinModelC4 piModelC4 ⟨50, 50, 0⟩ 10 0 1 = some circC4
    ∧ circC4.enabled = true
    ∧ polygon_is_point_inside bordersBig circC4.center.toCoords = true
    ∧ (⟨60, 50⟩ : Coords) ∈ circC4.bounding_box
    ∧ candidateAcceptSpec [circC4] bordersBig 0 ⟨60, 50⟩ = true
    ∧ validateObstaclePoints [circC4] bordersBig = [] := by
  refine ⟨?_, rfl, ?_, ?_, ?_, ?_⟩ <;>
    norm_num [mkObstacleCircle, circle_update_bounding_box, circleBBoxAux,
      cosModelC4, sinModelC4, piModelC4, candidateAcceptSpec, validateObstaclePoints,
      is_point_in_obstacles, polygon_is_point_inside, Obstacle.is_point_inside,
      circle_is_point_inside, dist2, nextVertex, Pose.toCoords, bordersBig, circC4,
      List.range_succ, coords_default_eq, Option.some_ne_none]
  all_goals simp

/-- Claim C5 counterexample: with a DISABLED circle containing the finish
pose, `plan((10,10),(50,50))` still fails with `FinishInsideObstacle` — the
check loop of `Avoidance::avoidance` (Avoidance.cpp:266) never consults
`enabled()` — although no enabled obstacle contains the finish. -/
theorem C5_counterexample :
    (avoidance (fun q => q) stDisabled ⟨10, 10⟩ ⟨50, 50⟩).map Prod.fst
      = some (AvOutcome.err PlanError.finishInsideObstacle)
    ∧ ((allObstacles stDisabled).all
        fun o => !(o.enabled && o.is_point_inside ⟨50, 50⟩)) = true := by
  constructor <;>
    norm_num [avoidance, checkObstaclesLoop, allObstacles, Obstacle.is_point_inside,
      polygon_is_point_inside, circle_is_point_inside, dist2, nextVertex,
      Pose.toCoords, stDisabled, circDisabled, bordersField, List.range_succ,
      coords_default_eq, Option.some_ne_none]

/-- Claim C6 counterexample: after the successful `plan((10,10),(90,90))`
on the empty field, the failing `plan((10,10),(500,500))` returns
`FinishOutsideBorders` — but the stored path survives (the early returns of
`Avoidance::avoidance` happen before `_path.clear()`, which only runs
inside `dijkstra`, Avoidance.cpp:163), so `path_length()` is 1, not 0. -/
theorem C6_counterexample :
    avoidance (fun q => q) stEmpty ⟨10, 10⟩ ⟨90, 90⟩ = some (AvOutcome.ok, stPlanned)
    ∧ stPlanned.path = [⟨90, 90⟩]
    ∧ avoidance (fun q => q) stPlanned ⟨10, 10⟩ ⟨500, 500⟩
        = some (AvOutcome.err PlanError.finishOutsideBorders, stFailed)
    ∧ stFailed.path = [⟨90, 90⟩]
    ∧ getPathSize stFailed = 1 := by
  refine ⟨?_, rfl, ?_, rfl, rfl⟩ <;>
    norm_num [avoidance, dijkstra, dijkstraLoop, walkParents, relaxAll, selectMin, dlt,
      dAdd, graphEdge, segmentCollides, calculate_distance, validateObstaclePoints,
      is_point_in_obstacles, checkObstaclesLoop, allObstacles, Obstacle.is_point_inside,
      polygon_is_point_inside, dist2, nextVertex, Pose.toCoords, stEmpty, stPlanned,
      stFailed, bordersField, List.range_succ, coords_default_eq, Option.some_ne_none]

/-- Claim C7 counterexample: an ENABLED dynamic circle centered outside the
borders crosses the segment (its first endpoint is inside the circle), so
the claim's predicate is true, yet `checkRecompute` returns false — the
code skips every dynamic obstacle whose center is outside the borders
(Avoidance.cpp:300). -/
theorem C7_counterexample :
    checkRecompute stDyn ⟨200, 200⟩ ⟨250, 200⟩ = false
    ∧ shouldRecomputeSpec stDyn ⟨200, 200⟩ ⟨250, 200⟩ = true := by
  constructor <;>
    norm_num [checkRecompute, shouldRecomputeSpec, Obstacle.is_segment_crossing,
      circle_is_segment_crossing, circle_is_point_inside, is_line_crossing_circle,
      polygon_is_point_inside, dist2, nextVertex, Pose.toCoords, stDyn, circOutside,
      bordersField, List.range_succ, coords_default_eq]

/-- Claim C9: `path_pose(i)` returns the i-th waypoint when `i <
path_length()` and fails with `IndexOutOfRange` otherwise (the C++ takes the
index as `uint8_t`, so callers can only pass 0..255; the bounds check itself
is total). -/
theorem C9_get_path_pose (st : AvState) (index : ℕ) :
    (index < st.path.length →
      getPathPose st index = Except.ok (st.path.getD index default))
    ∧ (st.path.length ≤ index →
      getPathPose st index = Except.error PathIndexError.indexOutOfRange) := by
  constructor
  · intro h
    simp [getPathPose, h, List.getD_eq_getElem?_getD, List.getElem?_eq_getElem h]
  · intro h
    simp [getPathPose, Nat.not_lt.mpr h]

/-- Witness for C9 on the concrete planned state (path length 1). -/
theorem C9_witness :
    getPathPose stPlanned 0 = Except.ok ⟨90, 90⟩
    ∧ getPathPose stPlanned 1 = Except.error PathIndexError.indexOutOfRange := by
  constructor
  · have h := (C9_get_path_pose stPlanned 0).1 (by simp [stPlanned])
    simpa [stPlanned] using h
  · exact (C9_get_path_pose stPlanned 1).2 (by simp [stPlanned])

/-- Claim C7 (amended): `should_recompute(a,b)` is true iff some dynamic
obstacle — enabled or not — whose center is inside the borders has
`crosses_segment(a,b)` true; fixed obstacles are never consulted (the scan
reads only the dynamic list). -/
theorem C7_check_recompute (st : AvState) (a b : Coords) :
    checkRecompute st a b = true
      ↔ ∃ o ∈ st.dynamicObstacles,
          polygon_is_point_inside st.borders o.center.toCoords = true
          ∧ o.is_segment_crossing a b = true := by
  simp [checkRecompute, List.any_eq_true, Bool.and_eq_true]

/-- Folding obstacle-wise candidate collection is the concatenation of the
per-obstacle contributions. -/
theorem foldl_validate_eq (cond : Obstacle → Bool) (payload : Obstacle → List Coords) :
    ∀ (l : List Obstacle) (init : List Coords),
      l.foldl (fun acc o => if cond o then acc ++ payload o else acc) init
        = init ++ l.flatMap (fun o => if cond o then payload o else []) := by
  intro l
  induction l with
  | nil => intro init; simp
  | cons o t ih =>
      intro init
      by_cases h : cond o = true
      · simp [h, ih, List.append_assoc]
      · simp [h, ih]

/-- Claim C4 (amended): during candidate-vertex selection, a point `p` of an
enabled obstacle `o` whose center is inside the borders is accepted iff the
borders contain `p` and no enabled obstacle AT ALL — including `o` itself —
contains `p` (the code passes a null filter to `is_point_in_obstacles`). -/
theorem C4_candidate_selection (obstacles : List Obstacle) (borders : List Coords)
    (p : Coords) :
    p ∈ validateObstaclePoints obstacles borders
      ↔ ∃ o ∈ obstacles,
          o.enabled = true
          ∧ polygon_is_point_inside borders o.center.toCoords = true
          ∧ p ∈ o.bounding_box
          ∧ polygon_is_point_inside borders p = true
          ∧ is_point_in_obstacles obstacles p none = false := by
  unfold validateObstaclePoints
  rw [foldl_validate_eq]
  simp only [List.nil_append, List.mem_flatMap]
  constructor
  · rintro ⟨o, ho, hp⟩
    by_cases h : (o.enabled && polygon_is_point_inside borders o.center.toCoords) = true
    · rw [if_pos h] at hp
      obtain ⟨hbb, hfilter⟩ := List.mem_filter.mp hp
      rw [Bool.and_eq_true] at h hfilter
      exact ⟨o, ho, h.1, h.2, hbb, hfilter.1, by simpa using hfilter.2⟩
    · rw [if_neg h] at hp
      simp at hp
  · rintro ⟨o, ho, he, hc, hbb, hin, hnot⟩
    refine ⟨o, ho, ?_⟩
    rw [if_pos (by simp [he, hc])]
    exact List.mem_filter.mpr ⟨hbb, by simp [hin, hnot]⟩

/-- Runs of the circle bounding-box loop that can reach the bound: starting
at counter `i ≤ n ≤ 255` with fuel exceeding the remaining iterations, the
loop returns exactly one appended sample per remaining iteration. -/
theorem circleBBoxAux_terminates (cosD sinD : ℚ → ℚ) (piD : ℚ) (c : Pose) (adjR : ℚ)
    (n : ℕ) (hn : n ≤ 255) :
    ∀ (fuel i : ℕ) (acc : List Coords), i ≤ n → n - i < fuel →
      ∃ pts, circleBBoxAux cosD sinD piD c adjR n fuel i acc = some pts
        ∧ pts.length = acc.length + (n - i) := by
  intro fuel
  induction fuel with
  | zero => intro i acc hi hf; omega
  | succ fuel ih =>
      intro i acc hi hf
      by_cases h : i < n
      · have hmod : (i + 1) % 256 = i + 1 := Nat.mod_eq_of_lt (by omega)
        rw [circleBBoxAux, if_pos h, hmod]
        obtain ⟨pts, heq, hlen⟩ := ih (i + 1)
          (acc ++ [⟨c.x + adjR * cosD ((i : ℚ) * 2 * piD / (n : ℚ)),
                    c.y + adjR * sinD ((i : ℚ) * 2 * piD / (n : ℚ))⟩])
          (by omega) (by omega)
        refine ⟨pts, heq, ?_⟩
        rw [hlen]
        simp
        omega
      · rw [circleBBoxAux, if_neg h]
        exact ⟨acc, rfl, by omega⟩

/-- Runs of the circle bounding-box loop that can never reach the bound:
when `n > 255` the wrapped 8-bit counter always stays below the bound, so
the loop exhausts any fuel. -/
theorem circleBBoxAux_diverges (cosD sinD : ℚ → ℚ) (piD : ℚ) (c : Pose) (adjR : ℚ)
    (n : ℕ) (hn : 255 < n) :
    ∀ (fuel i : ℕ) (acc : List Coords), i ≤ 255 →
      circleBBoxAux cosD sinD piD c adjR n fuel i acc = none := by
  intro fuel
  induction fuel with
  | zero => intro i acc _; rfl
  | succ fuel ih =>
      intro i acc hi
      rw [circleBBoxAux, if_pos (by omega)]
      exact ih ((i + 1) % 256) _ (by omega)

/-- Claim C10: the circle bounding-box computation terminates with exactly
`bounding_box_points_number` samples whenever `radius > 0` and `0 <
bounding_box_points_number ≤ 255`; because the loop counter is 8-bit while
the configured count is 32-bit, for any count above 255 the loop never
terminates (for every fuel), so termination is guaranteed only under the
precondition. -/
theorem C10_circle_bbox_termination (cosD sinD : ℚ → ℚ) (piD : ℚ) (center : Pose)
    (radius margin : ℚ) (n : ℕ) :
    (0 < n → n ≤ 255 → 0 < radius →
      ∃ pts, circle_update_bounding_box cosD sinD piD center radius margin n = some pts
        ∧ pts.length = n)
    ∧ (255 < n → 0 < radius →
      circle_update_bounding_box cosD sinD piD center radius margin n = none
      ∧ ∀ (fuel i : ℕ) (acc : List Coords), i ≤ 255 →
          circleBBoxAux cosD sinD piD center (radius * (1 + margin)) n fuel i acc
            = none) := by
  constructor
  · intro _ h255 hr
    unfold circle_update_bounding_box
    rw [if_neg (not_le.mpr hr)]
    obtain ⟨pts, heq, hlen⟩ :=
      circleBBoxAux_terminates cosD sinD piD center (radius * (1 + margin)) n h255
        (n + 1) 0 [] (by omega) (by omega)
    exact ⟨pts, heq, by simpa using hlen⟩
  · intro h255 hr
    refine ⟨?_, circleBBoxAux_diverges cosD sinD piD center _ n h255⟩
    unfold circle_update_bounding_box
    rw [if_neg (not_le.mpr hr)]
    exact circleBBoxAux_diverges cosD sinD piD center _ n h255 (n + 1) 0 [] (by omega)

/-- Witness for C10: a radius-10 circle with 8 samples yields exactly 8
bounding-box points. -/
theorem C10_witness :
    (circle_update_bounding_box (fun _ => 1) (fun _ => 0) 3 ⟨0, 0, 0⟩ 10 (1/5) 8).map
      List.length = some 8 := by
  obtain ⟨pts, heq, hlen⟩ :=
    (C10_circle_bbox_termination (fun _ => 1) (fun _ => 0) 3 ⟨0, 0, 0⟩ 10 (1/5) 8).1
      (by norm_num) (by norm_num) (by norm_num)
  rw [heq]
  simp [hlen]

/-- The start/finish check loop fails iff some scanned obstacle contains the
finish pose (the enabled flag plays no role). -/
theorem checkObstaclesLoop_error_iff (sqrtD : ℚ → ℚ) (finish : Coords) :
    ∀ (l : List Obstacle) (s : Coords),
      (∃ s', checkObstaclesLoop sqrtD finish l s = Except.error s')
        ↔ ∃ o ∈ l, o.is_point_inside finish = true := by
  intro l
  induction l with
  | nil => intro s; simp [checkObstaclesLoop]
  | cons o t ih =>
      intro s
      by_cases h : o.is_point_inside finish = true
      · simp [checkObstaclesLoop, h]
      · rw [checkObstaclesLoop, if_neg h, ih]
        simp only [List.mem_cons]
        constructor
        · rintro ⟨o', ho', hc⟩
          exact ⟨o', Or.inr ho', hc⟩
        · rintro ⟨o', ho', hc⟩
          rcases ho' with rfl | ho'
          · exact absurd hc h
          · exact ⟨o', ho', hc⟩

/-- When no scanned obstacle contains the start pose, the check loop leaves
it unchanged, whether it fails or not. -/
theorem checkObstaclesLoop_fix (sqrtD : ℚ → ℚ) (finish : Coords) :
    ∀ (l : List Obstacle) (s : Coords), (∀ o ∈ l, o.is_point_inside s = false) →
      checkObstaclesLoop sqrtD finish l s = Except.error s
      ∨ checkObstaclesLoop sqrtD finish l s = Except.ok s := by
  intro l
  induction l with
  | nil => intro s _; right; rfl
  | cons o t ih =>
      intro s hs
      by_cases h : o.is_point_inside finish = true
      · left; simp [checkObstaclesLoop, h]
      · have hso : o.is_point_inside s = false := hs o (List.mem_cons_self o t)
        have := ih s (fun o' ho' => hs o' (List.mem_cons_of_mem o ho'))
        simpa [checkObstaclesLoop, h, hso] using this

/-- The Dijkstra main loop can only fail with `noPath`. -/
theorem dijkstraLoop_error_noPath (n : ℕ) (edge : ℕ → ℕ → Option ℚ) :
    ∀ (fuel v : ℕ) (checked : ℕ → Bool) (dp : (ℕ → Option ℚ) × (ℕ → Int))
      (e : PlanError),
      dijkstraLoop n edge fuel v checked dp = some (Except.error e)
        → e = PlanError.noPath := by
  intro fuel
  induction fuel with
  | zero => intro v checked dp e h; exact absurd h (by simp [dijkstraLoop])
  | succ fuel ih =>
      intro v checked dp e h
      simp only [dijkstraLoop] at h
      split at h
      · split at h
        · exact (Except.error.inj (Option.some.inj h)).symm
        · exact ih _ _ _ e h
      · simp at h

/-- `dijkstra` can only fail with `startIsolated` or `noPath`. -/
theorem dijkstra_error_kinds (sqrtD : ℚ → ℚ) (st : AvState) (e : PlanError)
    (h : dijkstra sqrtD st = some (Except.error e)) :
    e = PlanError.startIsolated ∨ e = PlanError.noPath := by
  simp only [dijkstra] at h
  split at h
  · left
    have := Option.some.inj h
    exact (Except.error.inj this).symm
  · split at h
    · simp at h
    · right
      rename_i heq
      have := Option.some.inj h
      have he := Except.error.inj this
      exact he ▸ dijkstraLoop_error_noPath _ _ _ _ _ _ _ heq
    · split at h
      · simp at h
      · simp at h

/-- Every index collected by the parent walk is nonzero: the walk stops at
the start index 0 without pushing it. -/
theorem walkParents_ne_zero (parent : ℕ → Int) :
    ∀ (fuel : ℕ) (cur : Int) (l : List ℕ),
      walkParents parent fuel cur = some l → ∀ i ∈ l, i ≠ 0 := by
  intro fuel
  induction fuel with
  | zero => intro cur l h; exact absurd h (by simp [walkParents])
  | succ fuel ih =>
      intro cur l h
      simp only [walkParents] at h
      split at h
      · simp only [Option.some.injEq] at h
        subst h
        intro i hi
        simp at hi
      · rename_i hstop
        split at h
        · simp at h
        · rename_i cn
          split at h
          · simp at h
          · rename_i rest hrest
            simp only [Option.some.injEq] at h
            subst h
            intro i hi
            rcases List.mem_cons.mp hi with rfl | hi
            · intro h0
              exact hstop (Or.inr (by simp [h0]))
            · exact ih _ _ hrest i hi

/-- A parent walk started at the finish index 1 that returns collects 1
first. -/
theorem walkParents_of_one (parent : ℕ → Int) (fuel : ℕ) (l : List ℕ)
    (h : walkParents parent (fuel + 1) 1 = some l) : ∃ rest, l = 1 :: rest := by
  simp only [walkParents] at h
  rw [if_neg (by norm_num)] at h
  split at h
  · simp at h
  · rename_i rest hrest
    simp only [Option.some.injEq] at h
    exact ⟨rest, by simpa using h.symm⟩

/-- Structure of a successful `dijkstra` run: the state fields other than
the path and the computed flag are preserved, and the stored path is the
reverse of a parent walk from the finish vertex mapped through the valid
points. -/
theorem dijkstra_ok_fields (sqrtD : ℚ → ℚ) (st st' : AvState)
    (h : dijkstra sqrtD st = some (Except.ok st')) :
    st'.validPoints = st.validPoints ∧ st'.startPose = st.startPose
    ∧ st'.finishPose = st.finishPose ∧ st'.isComputed = true
    ∧ ∃ (parent : ℕ → Int) (visited : List ℕ),
        walkParents parent (st.validPoints.length + 1) 1 = some visited
        ∧ st'.path = visited.reverse.map (fun i => st.validPoints.getD i default) := by
  simp only [dijkstra] at h
  split at h
  · simp at h
  · split at h
    · simp at h
    · simp at h
    · rename_i parent hloop
      split at h
      · simp at h
      · rename_i visited hwalk
        simp only [Option.some.injEq, Except.ok.injEq] at h
        subst h
        exact ⟨rfl, rfl, rfl, rfl, parent, visited, hwalk, rfl⟩

/-- Claim C8: when `plan(start, finish)` succeeds, the stored path is
nonempty, never contains the candidate vertex at index 0 (the start pose),
ends exactly — hence within epsilon — at the finish pose, and is the
reverse of the predecessor walk from the finish vertex mapped through the
candidate vertices. -/
theorem C8_success_path_shape (sqrtD : ℚ → ℚ) (st : AvState) (start finish : Coords)
    (st' : AvState) (h : avoidance sqrtD st start finish = some (AvOutcome.ok, st')) :
    st'.path ≠ []
    ∧ st'.path.getLast? = some finish
    ∧ areDoublesEqual ((st'.path.getLast?.getD default).x) finish.x (1/1000) = true
    ∧ areDoublesEqual ((st'.path.getLast?.getD default).y) finish.y (1/1000) = true
    ∧ ∃ visited : List ℕ, visited.head? = some 1
        ∧ (∀ i ∈ visited, i ≠ 0)
        ∧ st'.path = visited.reverse.map (fun i => st'.validPoints.getD i default) := by
  simp only [avoidance] at h
  split at h
  · simp at h
  · split at h
    · simp at h
    · rename_i s hcl
      split at h
      · simp at h
      · simp at h
      · rename_i st3 hdij
        simp only [Option.some.injEq, Prod.mk.injEq] at h
        obtain ⟨-, rfl⟩ := h
        obtain ⟨hvp, hsp, hfp, hic, parent, visited, hwalk, hpath⟩ :=
          dijkstra_ok_fields sqrtD _ st3 hdij
        obtain ⟨rest, rfl⟩ := walkParents_of_one parent _ visited hwalk
        have hnz := walkParents_ne_zero parent _ _ _ hwalk
        simp only [List.cons_append, List.nil_append] at hpath hvp
        have hlast : st3.path.getLast? = some finish := by
          rw [hpath, List.reverse_cons, List.map_append]
          simp [List.getLast?_concat, List.getD_cons_succ, List.getD_cons_zero]
        refine ⟨?_, hlast, ?_, ?_, ⟨1 :: rest, rfl, hnz, ?_⟩⟩
        · rw [hpath]
          simp
        · rw [hlast]
          simp [areDoublesEqual]
        · rw [hlast]
          simp [areDoublesEqual]
        · rw [hpath, hvp]

/-- Claim C5 (amended): `plan(start, finish)` fails with
`FinishInsideObstacle` exactly when the borders contain the finish pose and
some obstacle — ENABLED OR NOT — contains it; and when no obstacle —
enabled or not — contains the start pose, the effective start pose is left
unchanged (the check loop consults no enabled flag). -/
theorem C5_plan_obstacle_checks (sqrtD : ℚ → ℚ) (st : AvState) (start finish : Coords) :
    ((avoidance sqrtD st start finish).map Prod.fst
        = some (AvOutcome.err PlanError.finishInsideObstacle)
      ↔ polygon_is_point_inside st.borders finish = true
        ∧ ∃ o ∈ allObstacles st, o.is_point_inside finish = true)
    ∧ ((∀ o ∈ allObstacles st, o.is_point_inside start = false) →
        ∀ (r : AvOutcome) (st' : AvState),
          avoidance sqrtD st start finish = some (r, st') → st'.startPose = start) := by
  constructor
  · simp only [avoidance, allObstacles]
    split
    · rename_i hb
      apply iff_of_false
      · simp
      · rintro ⟨hc, -⟩
        exact hb hc
    · rename_i hb
      split
      · rename_i s' hcl
        apply iff_of_true
        · simp
        · refine ⟨not_not.mp hb, ?_⟩
          exact (checkObstaclesLoop_error_iff sqrtD finish
            (st.fixedObstacles ++ st.dynamicObstacles) start).mp ⟨s', hcl⟩
      · rename_i s hcl
        apply iff_of_false
        · split
          · simp
          · rename_i e hdij
            have := dijkstra_error_kinds sqrtD _ e hdij
            rcases this with rfl | rfl <;> simp
          · simp
        · rintro ⟨-, o, ho, hc⟩
          obtain ⟨s', hs'⟩ := (checkObstaclesLoop_error_iff sqrtD finish
            (st.fixedObstacles ++ st.dynamicObstacles) start).mpr ⟨o, ho, hc⟩
          rw [hcl] at hs'
          simp at hs'
  · intro hno r st' heq
    simp only [allObstacles] at hno
    simp only [avoidance, allObstacles] at heq
    split at heq
    · simp only [Option.some.injEq, Prod.mk.injEq] at heq
      obtain ⟨-, hst⟩ := heq
      rw [← hst]
    · split at heq
      · rename_i s' hcl
        rcases checkObstaclesLoop_fix sqrtD finish
            (st.fixedObstacles ++ st.dynamicObstacles) start hno with hfix | hfix
        · rw [hcl] at hfix
          have hs : s' = start := Except.error.inj hfix
          simp only [Option.some.injEq, Prod.mk.injEq] at heq
          obtain ⟨-, hst⟩ := heq
          rw [← hst, hs]
        · rw [hcl] at hfix
          simp at hfix
      · rename_i s hcl
        have hs : s = start := by
          rcases checkObstaclesLoop_fix sqrtD finish
              (st.fixedObstacles ++ st.dynamicObstacles) start hno with hfix | hfix
          · rw [hcl] at hfix
            simp at hfix
          · rw [hcl] at hfix
            exact Except.ok.inj hfix
        split at heq
        · simp at heq
        · rename_i e hdij
          simp only [Option.some.injEq, Prod.mk.injEq] at heq
          obtain ⟨-, hst⟩ := heq
          rw [← hst, hs]
        · rename_i st3 hdij
          simp only [Option.some.injEq, Prod.mk.injEq] at heq
          obtain ⟨-, hst⟩ := heq
          obtain ⟨-, hsp, -, -, -⟩ := dijkstra_ok_fields sqrtD _ st3 hdij
          rw [← hst, hsp, hs]

/-- Claim C6 (amended): every failing plan leaves the computed flag false;
the stored path is cleared on `StartIsolated` and `NoPath` failures (the
clear happens inside `dijkstra`), but on `FinishOutsideBorders` and
`FinishInsideObstacle` failures the previously stored path survives
unchanged. -/
theorem C6_failure_state (sqrtD : ℚ → ℚ) (st : AvState) (start finish : Coords)
    (e : PlanError) (st' : AvState)
    (h : avoidance sqrtD st start finish = some (AvOutcome.err e, st')) :
    st'.isComputed = false
    ∧ ((e = PlanError.startIsolated ∨ e = PlanError.noPath) → st'.path = [])
    ∧ ((e = PlanError.finishOutsideBorders ∨ e = PlanError.finishInsideObstacle) →
        st'.path = st.path) := by
  simp only [avoidance] at h
  split at h
  · simp only [Option.some.injEq, Prod.mk.injEq] at h
    obtain ⟨he, hst⟩ := h
    have he' : e = PlanError.finishOutsideBorders := (AvOutcome.err.inj he).symm
    subst he'
    rw [← hst]
    refine ⟨rfl, ?_, fun _ => rfl⟩
    rintro (h' | h') <;> exact absurd h' (by simp)
  · split at h
    · rename_i s' hcl
      simp only [Option.some.injEq, Prod.mk.injEq] at h
      obtain ⟨he, hst⟩ := h
      have he' : e = PlanError.finishInsideObstacle := (AvOutcome.err.inj he).symm
      subst he'
      rw [← hst]
      refine ⟨rfl, ?_, fun _ => rfl⟩
      rintro (h' | h') <;> exact absurd h' (by simp)
    · rename_i s hcl
      split at h
      · simp at h
      · rename_i e' hdij
        simp only [Option.some.injEq, Prod.mk.injEq] at h
        obtain ⟨he, hst⟩ := h
        have he' : e = e' := (AvOutcome.err.inj he).symm
        subst he'
        have hkinds := dijkstra_error_kinds sqrtD _ e hdij
        rw [← hst]
        refine ⟨rfl, fun _ => rfl, ?_⟩
        rintro (h' | h') <;> subst h' <;>
          rcases hkinds with h'' | h'' <;> exact absurd h'' (by simp)
      · simp at h

/-- Witness for C5: the disabled-circle scenario — no obstacle contains the
start pose (10,10), so the returned state keeps it. -/
theorem C5_witness :
    (avoidance (fun q => q) stDisabled ⟨10, 10⟩ ⟨50, 50⟩).map
      (fun r => r.2.startPose) = some ⟨10, 10⟩ := by
  have hno : ∀ o ∈ allObstacles stDisabled, o.is_point_inside ⟨10, 10⟩ = false := by
    intro o ho
    simp only [allObstacles, stDisabled, List.append_nil, List.mem_singleton] at ho
    subst ho
    norm_num [Obstacle.is_point_inside, circDisabled, circle_is_point_inside, dist2,
      Pose.toCoords]
  have h : avoidance (fun q => q) stDisabled ⟨10, 10⟩ ⟨50, 50⟩
      = some (AvOutcome.err PlanError.finishInsideObstacle, stDisabledErr) := by
    norm_num [avoidance, checkObstaclesLoop, allObstacles, Obstacle.is_point_inside,
      polygon_is_point_inside, circle_is_point_inside, dist2, nextVertex, Pose.toCoords,
      stDisabled, stDisabledErr, circDisabled, bordersField, List.range_succ,
      coords_default_eq, Option.some_ne_none]
  have h2 := (C5_plan_obstacle_checks (fun q => q) stDisabled ⟨10, 10⟩ ⟨50, 50⟩).2 hno
    (AvOutcome.err PlanError.finishInsideObstacle) stDisabledErr h
  rw [h]
  simp [h2]

/-- Witness for C6: applying the failure-state theorem to the concrete
failing second plan of the two-run scenario. -/
theorem C6_witness :
    stFailed.isComputed = false ∧ stFailed.path = stPlanned.path := by
  have h : avoidance (fun q => q) stPlanned ⟨10, 10⟩ ⟨500, 500⟩
      = some (AvOutcome.err PlanError.finishOutsideBorders, stFailed) := by
    norm_num [avoidance, checkObstaclesLoop, allObstacles, polygon_is_point_inside,
      dist2, nextVertex, Pose.toCoords, stPlanned, stFailed, bordersField,
      List.range_succ, coords_default_eq, Option.some_ne_none]
  have h2 := C6_failure_state (fun q => q) stPlanned ⟨10, 10⟩ ⟨500, 500⟩
    PlanError.finishOutsideBorders stFailed h
  exact ⟨h2.1, h2.2.2 (Or.inl rfl)⟩

/-- Witness for C8: applying the success-shape theorem to the concrete
successful plan on the empty field. -/
theorem C8_witness :
    stPlanned.path ≠ [] ∧ stPlanned.path.getLast? = some ⟨90, 90⟩ := by
  have h : avoidance (fun q => q) stEmpty ⟨10, 10⟩ ⟨90, 90⟩
      = some (AvOutcome.ok, stPlanned) := by
    norm_num [avoidance, dijkstra, dijkstraLoop, walkParents, relaxAll, selectMin, dlt,
      dAdd, graphEdge, segmentCollides, calculate_distance, validateObstaclePoints,
      is_point_in_obstacles, checkObstaclesLoop, allObstacles, Obstacle.is_point_inside,
      polygon_is_point_inside, dist2, nextVertex, Pose.toCoords, stEmpty, stPlanned,
      bordersField, List.range_succ, coords_default_eq, Option.some_ne_none]
  have h2 := C8_success_path_shape (fun q => q) stEmpty ⟨10, 10⟩ ⟨90, 90⟩ stPlanned h
  exact ⟨h2.1, h2.2.1⟩
